import Mathlib

/-
Verification of the Dilema-Agriculture decision-orchestration subsystem.

The repository ships the frontend (React/TypeScript) and the design
documents; the backend evaluators and orchestrator are described by the
spec and the docs.  Frontend functions are embedded directly from the
TypeScript source; the backend pieces a claim needs are modelled from the
spec, each such definition marked `Modelled from the spec:` in its doc
comment.
-/

namespace Agri

/-! ## Frontend embedding: CropTimeline.getStageStatus -/

/-- JavaScript `Array.prototype.indexOf` on a list of strings: index of the
first occurrence, or `-1` when the element is absent.  Embeds the two
`indexOf` lookups in `CropTimeline.getStageStatus`. -/
def jsIndexOf : List String → String → Int
  | [], _ => -1
  | a :: rest, s =>
    if s = a then 0
    else if jsIndexOf rest s = -1 then -1 else jsIndexOf rest s + 1

/-- JavaScript `String.prototype.toLowerCase` restricted to the ASCII
case mapping, which covers every string the code compares: lower-case
each character. -/
def jsToLower (s : String) : String :=
  String.mk (s.data.map Char.toLower)

/-- The `stageOrder` array of `CropTimeline.getStageStatus`
(`src/frontend/src/pages/CropTimeline.tsx`). -/
def stageOrder : List String :=
  ["germination", "vegetative", "flowering", "maturity", "harvest"]

/-- `getStageStatus` from `src/frontend/src/pages/CropTimeline.tsx`:
compares the (lower-cased) index of a rendered stage name against the
(lower-cased) index of the backend-reported current stage. -/
def getStageStatus (stageName currentStage : String) : String :=
  let currentIndex := jsIndexOf stageOrder (jsToLower currentStage)
  let stageIndex := jsIndexOf stageOrder (jsToLower stageName)
  if stageIndex < currentIndex then "completed"
  else if stageIndex = currentIndex then "current"
  else "upcoming"

/-! ## Frontend embedding: chatService.sendMessage -/

/-- The body posted to `POST /chat` by `chatService.sendMessage`
(`src/frontend/src/services/api.ts`): exactly the two fields `content`
and `farmer_id`. -/
structure ChatRequestBody where
  content : String
  farmer_id : Int

/-- `chatService.sendMessage(content, farmerId)` from
`src/frontend/src/services/api.ts`: builds the request body
`{ content, farmer_id: farmerId }`. -/
def sendMessage (content : String) (farmerId : Int) : ChatRequestBody :=
  { content := content, farmer_id := farmerId }

/-- The call in `ChatAssistant.handleSend`
(`src/frontend/src/pages/ChatAssistant.tsx`):
`chatService.sendMessage(userMsg.text, farmerId, imageToSend, i18n.language)`.
JavaScript ignores arguments beyond a function's declared parameters, so
only the first two reach `sendMessage`. -/
def handleSendRequest (text : String) (farmerId : Int)
    (imageToSend : Option String) (lang : String) : ChatRequestBody :=
  sendMessage text farmerId

/-! ## Crop-Stage Evaluator (modelled from the spec: the backend evaluator
implementation is not under `src/`; docs/architecture.md and spec §4.2
describe it) -/

/-- Modelled from the spec: the daily GDD increment
`GDD_day = max(0, (T_max + T_min)/2 - T_base)` (§4.2), with negative
contributions clamped to zero. -/
def gddDay (tBase tMax tMin : ℚ) : ℚ :=
  max 0 ((tMax + tMin) / 2 - tBase)

/-- Modelled from the spec: summing daily increments into
`accumulated_gdd` starting from the last computed checkpoint (§4.2).
Each list entry is a day's `(T_max, T_min)`. -/
def accumGdd (tBase init : ℚ) (days : List (ℚ × ℚ)) : ℚ :=
  days.foldl (fun acc d => acc + gddDay tBase d.1 d.2) init

/-- Modelled from the spec: one crop knowledge-base entry,
`crop_type → {T_base, stage_thresholds: ordered list of
(stage_name, cumulative_gdd_upper_bound), total_gdd_to_maturity}` (§6). -/
structure CropInfo where
  tBase : ℚ
  stageThresholds : List (String × ℚ)
  totalGdd : ℚ

/-- Modelled from the spec: rice's knowledge-base entry; §8 fixes
`T_base = 10` and the stage table
`[germination:0-50, seedling:50-150, vegetative:150-500]`. -/
def riceInfo : CropInfo :=
  { tBase := 10
    stageThresholds := [("germination", 50), ("seedling", 150), ("vegetative", 500)]
    totalGdd := 500 }

/-- Modelled from the spec: the static keyed crop knowledge base (§6).
Only rice's parameters are fixed by the spec; any other key is absent and
triggers `UnknownCropKind` (§4.2). -/
def kb (crop : String) : Option CropInfo :=
  if crop = "rice" then some riceInfo else none

/-- Turns the ordered upper-bound table into half-open stage intervals
`(name, lower, upper)`, each stage's lower bound being the previous
stage's upper bound (the first stage starts at `lo`). -/
def intervalsFrom (lo : ℚ) : List (String × ℚ) → List (String × ℚ × ℚ)
  | [] => []
  | (n, hi) :: rest => (n, lo, hi) :: intervalsFrom hi rest

/-- The stage intervals of a crop, starting from GDD 0. -/
def stageIntervals (info : CropInfo) : List (String × ℚ × ℚ) :=
  intervalsFrom 0 info.stageThresholds

/-- Modelled from the spec: mapping `accumulated_gdd` against the ordered
stage-threshold table to the first stage whose upper bound the total has
not reached (§4.2); past the last bound the crop stays at full maturity. -/
def stageFor (info : CropInfo) (gdd : ℚ) : String :=
  match (stageIntervals info).find? (fun e => decide (gdd < e.2.2)) with
  | some e => e.1
  | none => ((info.stageThresholds.getLast?).map Prod.fst).getD "mature"

/-- Modelled from the spec: `stage_progress` as linear interpolation
between the current stage's lower and upper GDD bound (§4.2). -/
def stageProgressFor (info : CropInfo) (gdd : ℚ) : ℚ :=
  match (stageIntervals info).find? (fun e => decide (gdd < e.2.2)) with
  | some e => (gdd - e.2.1) / (e.2.2 - e.2.1)
  | none => 1

/-- The Crop-Stage Evaluator's proposed CropRecord delta (§4.2): new
accumulated GDD, derived stage, stage progress and overall progress. -/
structure CropStageOut where
  accumulated_gdd : ℚ
  stage : String
  stage_progress : ℚ
  overall_progress : ℚ
  deriving DecidableEq

/-- Modelled from the spec: the Crop-Stage Evaluator core for a known
crop — accumulate GDD, derive stage, stage progress, and
`overall_progress = accumulated_gdd / total GDD, capped at 1.0` (§4.2). -/
def evalWithInfo (info : CropInfo) (init : ℚ) (days : List (ℚ × ℚ)) : CropStageOut :=
  let g := accumGdd info.tBase init days
  { accumulated_gdd := g
    stage := stageFor info g
    stage_progress := stageProgressFor info g
    overall_progress := min 1 (g / info.totalGdd) }

/-- Modelled from the spec: the error taxonomy of §7. -/
inductive ErrKind where
  | DataUnavailable
  | UnknownCropKind
  | UnsupportedIntent
  | ProfileIncomplete
  | CommitConflict
  deriving DecidableEq

/-- Modelled from the spec: knowledge-base lookup; a crop type missing
from the knowledge base fails with `UnknownCropKind` (§4.2). -/
def lookupCrop (crop : String) : Except ErrKind CropInfo :=
  match kb crop with
  | some info => .ok info
  | none => .error .UnknownCropKind

/-- Modelled from the spec: the generic phenology curve used as fallback
when the crop is unknown (§7); its exact numbers are not fixed by the
spec, only its knowledge-base-entry shape (§6). -/
def genericPhenology : CropInfo :=
  { tBase := 10
    stageThresholds :=
      [("germination", 100), ("vegetative", 700), ("flowering", 1100), ("maturity", 1500)]
    totalGdd := 1500 }

/-- Modelled from the spec: the Crop-Stage layer. `UnknownCropKind` is
recoverable at this layer — it falls back to the generic phenology curve
instead of aborting the run (§7). -/
def cropStageEvaluate (crop : String) (init : ℚ) (days : List (ℚ × ℚ)) :
    Except ErrKind CropStageOut :=
  match lookupCrop crop with
  | .ok info => .ok (evalWithInfo info init days)
  | .error .UnknownCropKind => .ok (evalWithInfo genericPhenology init days)
  | .error e => .error e

/-! ## Risk Evaluator (modelled from the spec §4.3) -/

/-- Modelled from the spec: the enumerated threat kinds of a RiskFinding
(§3). -/
inductive ThreatKind where
  | pest
  | disease
  | heatStress
  | waterStress
  | sprayUnsafe
  deriving DecidableEq

/-- Modelled from the spec: finding severity (§3). -/
inductive Severity where
  | low
  | medium
  | high
  deriving DecidableEq

/-- Modelled from the spec: a RiskFinding — threat kind, severity, which
rule fired, valid-until horizon in days (§3). -/
structure RiskFinding where
  kind : ThreatKind
  severity : Severity
  triggeredBy : String
  validDays : Nat
  deriving DecidableEq

/-- Modelled from the spec: the Weather Evaluator's FarmingImpact summary
(§4.1). -/
structure FarmingImpact where
  rain_risk : ℚ
  heat_stress_risk : ℚ
  spray_safe : Bool
  irrigation_needed : Bool
  deriving DecidableEq

/-- Modelled from the spec: ambient runtime facts (wall-clock time, a
randomness seed) that an impure implementation could consult; §4.3
forbids the Risk Evaluator from depending on them. -/
structure Ambient where
  wallClock : Nat
  randomSeed : Nat

/-- Modelled from the spec: the ordered declarative rule table of the
Risk Evaluator — condition→finding pairs, not branching code (§4.3, §9).
The first two rules are the spec's examples (flowering+heat → heat-stress
high; maturity+rain → pre-harvest rain, medium); spray-unsafe and
water-stress rules follow the enumerated threat kinds. -/
def riskRules : List ((String → FarmingImpact → Nat → Bool) × RiskFinding) :=
  [ (fun stage impact _ => stage == "flowering" && decide ((6 : ℚ)/10 ≤ impact.heat_stress_risk),
     { kind := .heatStress, severity := .high, triggeredBy := "flowering_heat", validDays := 3 }),
    (fun stage impact _ => stage == "maturity" && decide ((5 : ℚ)/10 ≤ impact.rain_risk),
     { kind := .disease, severity := .medium, triggeredBy := "maturity_preharvest_rain", validDays := 3 }),
    (fun _ impact _ => !impact.spray_safe,
     { kind := .sprayUnsafe, severity := .medium, triggeredBy := "wind_or_rain_spray", validDays := 1 }),
    (fun stage impact _ => impact.irrigation_needed && (stage == "vegetative" || stage == "flowering"),
     { kind := .waterStress, severity := .medium, triggeredBy := "dry_spell_water_stress", validDays := 2 }) ]

/-- Modelled from the spec: the Risk Evaluator — evaluates the ordered
rule table over (stage, impact, days-since-sowing); every matching rule's
finding is returned, in table order (§4.3).  The `Ambient` argument
carries the runtime facts the evaluator must not use. -/
def riskEvaluate (stage : String) (impact : FarmingImpact) (days : Nat)
    (amb : Ambient) : List RiskFinding :=
  riskRules.filterMap (fun r => if r.1 stage impact days then some r.2 else none)

/-! ## Decision Orchestrator (modelled from the spec §4.4, §6, §7) -/

/-- Modelled from the spec: the enumerated intents (§4.4). -/
inductive Intent where
  | irrigationQuery
  | weatherQuery
  | cropStatusQuery
  | harvestTimingQuery
  | generalQuery
  | cropOnboardingIntent
  deriving DecidableEq

/-- Evaluator identities, used to merge by identity rather than by
arrival order (§5). -/
inductive EvalId where
  | weather
  | risk
  | cropStage
  | context
  deriving DecidableEq

/-- Modelled from the spec: the explicit per-intent precedence table for
the primary recommendation — Weather > Risk > Crop-Stage > Context for
irrigation-class intents, Crop-Stage > Risk > Weather for status-class
intents (§4.4). -/
def precedenceOf : Intent → List EvalId
  | .irrigationQuery => [.weather, .risk, .cropStage, .context]
  | .weatherQuery => [.weather, .risk, .cropStage, .context]
  | .cropStatusQuery => [.cropStage, .risk, .weather]
  | .harvestTimingQuery => [.cropStage, .risk, .weather]
  | .generalQuery => [.context]
  | .cropOnboardingIntent => [.context]

/-- The structured outputs of the dispatched evaluators, keyed by
evaluator identity; `none` means the evaluator was not dispatched or
failed with `DataUnavailable` (§4.4, §5). -/
structure EvaluatorOutputs where
  weather : Option FarmingImpact
  cropStage : Option CropStageOut
  risk : Option (List RiskFinding)
  contextNote : Option String

/-- Modelled from the spec: each evaluator's proposed primary
recommendation, as the merge consults it (§4.4); the Weather Evaluator
recommends irrigation exactly when its `irrigation_needed` heuristic
holds (§4.1). -/
def recOf (outs : EvaluatorOutputs) : EvalId → Option String
  | .weather => outs.weather.map
      (fun w => if w.irrigation_needed then "irrigate now" else "no irrigation needed")
  | .risk => outs.risk.map
      (fun fs => if fs.isEmpty then "no active risks" else "address flagged risks")
  | .cropStage => outs.cropStage.map (fun c => "crop is in stage " ++ c.stage)
  | .context => outs.contextNote

/-- Modelled from the spec: which data sources were available for this
run (weather provider, crop record, risk rules, context store); a
missing or stale source counts as unavailable (§4.4). -/
structure Availability where
  weatherAvail : Bool
  cropRecordAvail : Bool
  riskRulesAvail : Bool
  contextAvail : Bool
  deriving DecidableEq

/-- All data sources unavailable: full degradation (§8). -/
def allUnavailable : Availability :=
  { weatherAvail := false, cropRecordAvail := false
    riskRulesAvail := false, contextAvail := false }

/-- Modelled from the spec: the fixed per-source confidence penalties;
§4.4 fixes −0.2 for unavailable weather and −0.15 for an incomplete crop
record, and §8 requires that full unavailability drives every intent's
ceiling down to the floor, which fixes the remaining two penalties' sum. -/
def totalPenalty (a : Availability) : ℚ :=
  (if a.weatherAvail then 0 else 2/10)
    + (if a.cropRecordAvail then 0 else 15/100)
    + (if a.riskRulesAvail then 0 else 2/10)
    + (if a.contextAvail then 0 else 25/100)

/-- Modelled from the spec: the intent-determined confidence ceiling —
0.9 for data-rich intents (§4.4), lower for context-only intents. -/
def ceilingOf : Intent → ℚ
  | .irrigationQuery => 9/10
  | .weatherQuery => 9/10
  | .cropStatusQuery => 9/10
  | .harvestTimingQuery => 9/10
  | .generalQuery => 7/10
  | .cropOnboardingIntent => 8/10

/-- Modelled from the spec: the configured confidence floor (§4.4, §8). -/
def confFloor : ℚ := 1/10

/-- Modelled from the spec: confidence scoring — the intent ceiling minus
the fixed penalty of each missing or stale source, floored at 0.1 (§4.4). -/
def confidenceScore (intent : Intent) (a : Availability) : ℚ :=
  max confFloor (ceilingOf intent - totalPenalty a)

/-- The data-source identifiers recorded on the Decision (§3), matching
the identifiers the chat endpoint reports (docs/api_endpoints.md). -/
def dataSourcesOf (a : Availability) : List String :=
  (if a.weatherAvail then ["open-meteo"] else [])
    ++ (if a.cropRecordAvail then ["gdd_calculation"] else [])
    ++ (if a.riskRulesAvail then ["risk_rules"] else [])
    ++ (if a.contextAvail then ["context_store"] else [])

/-- Modelled from the spec: the immutable Decision record (§3). -/
structure Decision where
  intent : Intent
  recommendation : String
  confidence : ℚ
  alerts : List RiskFinding
  data_sources : List String
  reasoning : String

/-- Modelled from the spec: the Orchestrator merge — the primary
recommendation follows the first evaluator in the intent's precedence
table that produced an output, safety/risk findings always surface as
alerts regardless of the primary recommendation, and the confidence is
the scored value (§4.4). -/
def mergeDecision (intent : Intent) (outs : EvaluatorOutputs)
    (avail : Availability) : Decision :=
  { intent := intent
    recommendation := ((precedenceOf intent).findSome? (recOf outs)).getD "insufficient data"
    confidence := confidenceScore intent avail
    alerts := outs.risk.getD []
    data_sources := dataSourcesOf avail
    reasoning :=
      ((precedenceOf intent).findSome? (recOf outs)).getD "insufficient data" }

/-- Modelled from the spec: FarmProfile — farmer id, land size,
irrigation type, geolocation (§3). -/
structure FarmProfile where
  farmer_id : Nat
  land_size_acres : ℚ
  irrigation_type : String
  latitude : ℚ
  longitude : ℚ

/-- Modelled from the spec: the state one chat request presents to the
Orchestrator — the extracted intent (`none` when the NLU produced an
unknown intent), the loaded profile, the evaluator outputs and the
data-source availability (§4.4, §7). -/
structure ChatState where
  rawIntent : Option Intent
  profile : Option FarmProfile
  outs : EvaluatorOutputs
  avail : Availability

/-- Modelled from the spec: one Orchestrator run — an unknown intent
fails fast with `UnsupportedIntent`, a missing profile with
`ProfileIncomplete`, otherwise the evaluators' outputs are merged into a
Decision (§4.4, §7). -/
def runOrchestrator (st : ChatState) : Except ErrKind Decision :=
  match st.rawIntent with
  | none => .error .UnsupportedIntent
  | some intent =>
    match st.profile with
    | none => .error .ProfileIncomplete
    | some _ => .ok (mergeDecision intent st.outs st.avail)

/-- The Decision-shaped response the chat endpoint returns: exactly the
fields `response`, `confidence`, `reasoning`, `data_sources`, `alerts`
(§6; `ChatResponse` in src/frontend/src/services/api.ts;
docs/api_endpoints.md `POST /chat`). -/
structure DecisionResponse where
  response : String
  confidence : ℚ
  reasoning : String
  data_sources : List String
  alerts : List String

/-- Rendering a Decision into the wire shape (§6). -/
def respOfDecision (d : Decision) : DecisionResponse :=
  { response := d.recommendation
    confidence := d.confidence
    reasoning := d.reasoning
    data_sources := d.data_sources
    alerts := d.alerts.map (fun f => f.triggeredBy) }

/-- Modelled from the spec: the Decision-shaped fallback the chat layer
produces for a terminal Orchestrator error — polite message, confidence
at the floor, reasoning stating insufficient data, never a raw exception
(§7). -/
def fallbackResponse (e : ErrKind) : DecisionResponse :=
  { response :=
      match e with
      | .UnsupportedIntent => "Sorry, I could not understand that request."
      | .ProfileIncomplete => "Please complete your farm profile first."
      | _ => "Service temporarily degraded, please try again."
    confidence := confFloor
    reasoning := "insufficient data"
    data_sources := []
    alerts := [] }

/-- Modelled from the spec: the chat endpoint — a total function from
request state to a Decision-shaped response; terminal errors become the
fallback response (§7). -/
def chatEndpoint (st : ChatState) : DecisionResponse :=
  match runOrchestrator st with
  | .ok d => respOfDecision d
  | .error e => fallbackResponse e

/-! ## Concrete sample values used by witnesses -/

/-- Evaluator outputs for a fully degraded run: nothing returned. -/
def outsEmpty : EvaluatorOutputs :=
  { weather := none, cropStage := none, risk := none, contextNote := none }

/-- A Weather Evaluator impact summary implying no irrigation. -/
def noIrrImpact : FarmingImpact :=
  { rain_risk := 7/10, heat_stress_risk := 2/10, spray_safe := true,
    irrigation_needed := false }

/-- A water-stress finding as the Risk Evaluator's water-stress rule
produces it. -/
def waterStressDemo : RiskFinding :=
  { kind := .waterStress, severity := .medium,
    triggeredBy := "dry_spell_water_stress", validDays := 2 }

/-- Evaluator outputs with Weather implying no irrigation and Risk
reporting a water-stress finding. -/
def outsDemo : EvaluatorOutputs :=
  { weather := some noIrrImpact, cropStage := none,
    risk := some [waterStressDemo], contextNote := none }

/-- A sample farm profile. -/
def profileDemo : FarmProfile :=
  { farmer_id := 1, land_size_acres := 5, irrigation_type := "drip",
    latitude := 17385/1000, longitude := 78486/1000 }

/-- A chat request state under full data degradation: valid intent and
profile, but no evaluator produced output and every source is
unavailable. -/
def degradedState : ChatState :=
  { rawIntent := some .irrigationQuery, profile := some profileDemo,
    outs := outsEmpty, avail := allUnavailable }

/-! ## Helper lemmas -/

theorem jsIndexOf_of_not_mem (l : List String) (s : String) (h : s ∉ l) :
    jsIndexOf l s = -1 := by
  induction l with
  | nil => rfl
  | cons a rest ih =>
    have hne : s ≠ a := fun he => h (he ▸ List.mem_cons_self a rest)
    have hrest : s ∉ rest := fun hm => h (List.mem_cons_of_mem a hm)
    simp [jsIndexOf, hne, ih hrest]

theorem jsIndexOf_nonneg_of_mem (l : List String) (s : String) (h : s ∈ l) :
    0 ≤ jsIndexOf l s := by
  induction l with
  | nil => cases h
  | cons a rest ih =>
    by_cases he : s = a
    · simp [jsIndexOf, he]
    · have hm : s ∈ rest := by
        cases h with
        | head => exact absurd rfl he
        | tail _ hm => exact hm
      have hr := ih hm
      simp only [jsIndexOf, if_neg he]
      split <;> omega

theorem gddDay_nonneg (tBase tMax tMin : ℚ) : 0 ≤ gddDay tBase tMax tMin :=
  le_max_left 0 _

theorem le_accumGdd (tBase : ℚ) (days : List (ℚ × ℚ)) :
    ∀ init : ℚ, init ≤ accumGdd tBase init days := by
  induction days with
  | nil => intro init; exact le_refl init
  | cons d rest ih =>
    intro init
    have h1 : init ≤ init + gddDay tBase d.1 d.2 :=
      le_add_of_nonneg_right (gddDay_nonneg tBase d.1 d.2)
    exact le_trans h1 (ih (init + gddDay tBase d.1 d.2))

theorem accumGdd_append (tBase init : ℚ) (days more : List (ℚ × ℚ)) :
    accumGdd tBase init (days ++ more)
      = accumGdd tBase (accumGdd tBase init days) more := by
  simp [accumGdd, List.foldl_append]

theorem riceIntervals_eq :
    stageIntervals riceInfo
      = [("germination", (0 : ℚ), 50), ("seedling", 50, 150),
         ("vegetative", 150, 500)] := rfl

theorem totalPenalty_allUnavailable : totalPenalty allUnavailable = 8/10 := by
  norm_num [totalPenalty, allUnavailable]

theorem ceiling_sub_penalty_le_floor (intent : Intent) :
    ceilingOf intent - totalPenalty allUnavailable ≤ confFloor := by
  rw [totalPenalty_allUnavailable]
  cases intent <;> norm_num [ceilingOf, confFloor]

theorem confFloor_le_confidenceScore (intent : Intent) (a : Availability) :
    confFloor ≤ confidenceScore intent a :=
  le_max_left _ _

/-! ## Claim theorems -/

/-- C1: every daily GDD increment is computed as
`max(0, (T_max + T_min)/2 - T_base)` with the crop-specific base
temperature, so each increment is non-negative; accumulating further
days never decreases `accumulated_gdd`, and from a non-negative start
the accumulated value stays non-negative. -/
theorem c1_gdd_clamped_and_monotone (tBase tMax tMin init : ℚ)
    (days more : List (ℚ × ℚ)) :
    gddDay tBase tMax tMin = max 0 ((tMax + tMin) / 2 - tBase) ∧
      0 ≤ gddDay tBase tMax tMin ∧
      accumGdd tBase init days ≤ accumGdd tBase init (days ++ more) ∧
      (0 ≤ init → 0 ≤ accumGdd tBase init days) := by
  refine ⟨rfl, gddDay_nonneg _ _ _, ?_, ?_⟩
  · rw [accumGdd_append]
    exact le_accumGdd tBase more (accumGdd tBase init days)
  · intro h0
    exact le_trans h0 (le_accumGdd tBase days init)

/-- Witness for C1 at a concrete cold-day-containing history. -/
theorem c1_gdd_clamped_and_monotone_wit :
    0 ≤ accumGdd 10 0 [((28 : ℚ), 28), (5, 3), (30, 20)] :=
  (c1_gdd_clamped_and_monotone 10 28 28 0
    [((28 : ℚ), 28), (5, 3), (30, 20)] []).2.2.2 (by norm_num)

/-- C5: the Risk Evaluator is a pure function of (stage, impact,
days-since-sowing): two runs on identical inputs return the identical
finding list in the identical order, whatever the ambient wall-clock
time or randomness seed. -/
theorem c5_risk_evaluator_deterministic (stage : String)
    (impact : FarmingImpact) (days : Nat) (amb1 amb2 : Ambient) :
    riskEvaluate stage impact days amb1 = riskEvaluate stage impact days amb2 :=
  rfl

/-- C7: a crop type absent from the knowledge base fails the lookup with
`UnknownCropKind`, and the Crop-Stage layer recovers by evaluating the
generic phenology curve instead of propagating the error. -/
theorem c7_unknown_crop_recovers (crop : String) (hc : kb crop = none)
    (init : ℚ) (days : List (ℚ × ℚ)) :
    lookupCrop crop = .error .UnknownCropKind ∧
      cropStageEvaluate crop init days
        = .ok (evalWithInfo genericPhenology init days) := by
  constructor
  · simp [lookupCrop, hc]
  · simp [cropStageEvaluate, lookupCrop, hc]

/-- Witness for C7 at the unknown crop type "banana". -/
theorem c7_unknown_crop_recovers_wit :
    kb "banana" = none ∧
      (lookupCrop "banana" = .error .UnknownCropKind ∧
        cropStageEvaluate "banana" 0 [((30 : ℚ), 20)]
          = .ok (evalWithInfo genericPhenology 0 [((30 : ℚ), 20)])) :=
  ⟨rfl, c7_unknown_crop_recovers "banana" rfl 0 [((30 : ℚ), 20)]⟩

/-- C9: when the backend-reported current stage, lower-cased as the code
compares it, is not one of the five stages in `stageOrder` — e.g. the
"seedling" stage of GET /crop-status — `getStageStatus` returns
"upcoming" for every listed stage name, so no lifecycle stage renders as
completed or current. -/
theorem c9_unknown_stage_all_upcoming (currentStage : String)
    (hcur : jsToLower currentStage ∉ stageOrder)
    (stageName : String) (hmem : stageName ∈ stageOrder) :
    getStageStatus stageName currentStage = "upcoming" := by
  have h1 : jsIndexOf stageOrder (jsToLower currentStage) = -1 :=
    jsIndexOf_of_not_mem _ _ hcur
  have hlow : jsToLower stageName ∈ stageOrder := by
    fin_cases hmem <;> decide
  have h2 : 0 ≤ jsIndexOf stageOrder (jsToLower stageName) :=
    jsIndexOf_nonneg_of_mem _ _ hlow
  have h3 : ¬ jsIndexOf stageOrder (jsToLower stageName)
        < jsIndexOf stageOrder (jsToLower currentStage) := by
    rw [h1]; omega
  have h4 : ¬ jsIndexOf stageOrder (jsToLower stageName)
        = jsIndexOf stageOrder (jsToLower currentStage) := by
    rw [h1]; omega
  simp only [getStageStatus]
  rw [if_neg h3, if_neg h4]

/-- Witness for C9 at the "seedling" stage the backend reports. -/
theorem c9_unknown_stage_all_upcoming_wit :
    jsToLower "seedling" ∉ stageOrder ∧ "vegetative" ∈ stageOrder ∧
      getStageStatus "vegetative" "seedling" = "upcoming" :=
  ⟨by decide, by decide,
    c9_unknown_stage_all_upcoming "seedling" (by decide) "vegetative" (by decide)⟩

/-- C10: the chat request body built for `POST /chat` holds exactly the
fields `content` and `farmer_id`; the image attachment and
interface-language arguments passed by `ChatAssistant.handleSend` are
dropped and do not influence the transmitted body. -/
theorem c10_chat_body_drops_image_and_language (text : String)
    (farmerId : Int) (img1 img2 : Option String) (lang1 lang2 : String) :
    handleSendRequest text farmerId img1 lang1
        = { content := text, farmer_id := farmerId } ∧
      handleSendRequest text farmerId img1 lang1
        = handleSendRequest text farmerId img2 lang2 :=
  ⟨rfl, rfl⟩

/-- C3: for an irrigation query where the Weather Evaluator's impact
implies no irrigation while the Risk Evaluator reports a water-stress
finding, the merged Decision keeps the water-stress finding in its alert
list while the primary recommendation follows Weather, per the explicit
precedence Weather > Risk > Crop-Stage > Context for irrigation-class
intents. -/
theorem c3_irrigation_merge_precedence (impact : FarmingImpact)
    (risks : List RiskFinding) (outs : EvaluatorOutputs)
    (avail : Availability) (f : RiskFinding)
    (hw : outs.weather = some impact)
    (hirr : impact.irrigation_needed = false)
    (hr : outs.risk = some risks)
    (hf : f ∈ risks) (hk : f.kind = .waterStress) :
    precedenceOf .irrigationQuery = [.weather, .risk, .cropStage, .context] ∧
      (mergeDecision .irrigationQuery outs avail).recommendation
        = "no irrigation needed" ∧
      f ∈ (mergeDecision .irrigationQuery outs avail).alerts ∧
      f.kind = .waterStress := by
  refine ⟨rfl, ?_, ?_, hk⟩
  · have hrec : recOf outs EvalId.weather = some "no irrigation needed" := by
      simp [recOf, hw, hirr]
    simp [mergeDecision, precedenceOf, List.findSome?, hrec]
  · simp only [mergeDecision, hr, Option.getD_some]
    exact hf

/-- Witness for C3 at a concrete no-irrigation impact and a concrete
water-stress finding. -/
theorem c3_irrigation_merge_precedence_wit :
    (mergeDecision .irrigationQuery outsDemo allUnavailable).recommendation
        = "no irrigation needed" ∧
      waterStressDemo
        ∈ (mergeDecision .irrigationQuery outsDemo allUnavailable).alerts := by
  have h := c3_irrigation_merge_precedence noIrrImpact [waterStressDemo]
    outsDemo allUnavailable waterStressDemo rfl rfl rfl (by simp) rfl
  exact ⟨h.2.1, h.2.2.1⟩

/-- C4: the merged Decision's confidence is the intent-determined ceiling
minus the fixed per-source penalties, floored at the configured 0.1
floor; it never drops below the (positive) floor, and with every data
source unavailable it equals the floor exactly. -/
theorem c4_confidence_ceiling_penalties_floor (intent : Intent)
    (outs : EvaluatorOutputs) (avail : Availability) :
    (mergeDecision intent outs avail).confidence
        = max confFloor (ceilingOf intent - totalPenalty avail) ∧
      confFloor ≤ (mergeDecision intent outs avail).confidence ∧
      0 < confFloor ∧
      (avail = allUnavailable →
        (mergeDecision intent outs avail).confidence = confFloor) := by
  refine ⟨rfl, confFloor_le_confidenceScore intent avail,
    by norm_num [confFloor], ?_⟩
  intro h
  subst h
  show confidenceScore intent allUnavailable = confFloor
  exact max_eq_left (ceiling_sub_penalty_le_floor intent)

/-- Witness for C4 under full degradation. -/
theorem c4_confidence_ceiling_penalties_floor_wit :
    (mergeDecision .irrigationQuery outsEmpty allUnavailable).confidence
      = confFloor :=
  (c4_confidence_ceiling_penalties_floor .irrigationQuery outsEmpty
    allUnavailable).2.2.2 rfl

/-- C8: the chat endpoint is a total function into the Decision-shaped
response — determined by exactly the fields `response`, `confidence`,
`reasoning`, `data_sources`, `alerts` — whose confidence never drops
below the floor; under full data degradation the confidence sits at the
floor, and a terminal Orchestrator error becomes the fallback response
rather than a raised exception. -/
theorem c8_chat_always_decision_shaped (st : ChatState) :
    chatEndpoint st
        = { response := (chatEndpoint st).response
            confidence := (chatEndpoint st).confidence
            reasoning := (chatEndpoint st).reasoning
            data_sources := (chatEndpoint st).data_sources
            alerts := (chatEndpoint st).alerts } ∧
      confFloor ≤ (chatEndpoint st).confidence ∧
      (st.rawIntent = none → chatEndpoint st = fallbackResponse .UnsupportedIntent) ∧
      (st.avail = allUnavailable → (chatEndpoint st).confidence = confFloor) := by
  refine ⟨rfl, ?_, ?_, ?_⟩
  · unfold chatEndpoint runOrchestrator
    cases h1 : st.rawIntent with
    | none => exact le_refl _
    | some intent =>
      cases h2 : st.profile with
      | none => exact le_refl _
      | some p => exact confFloor_le_confidenceScore intent st.avail
  · intro h1
    unfold chatEndpoint runOrchestrator
    rw [h1]
  · intro hA
    unfold chatEndpoint runOrchestrator
    cases h1 : st.rawIntent with
    | none => rfl
    | some intent =>
      cases h2 : st.profile with
      | none => rfl
      | some p =>
        show confidenceScore intent st.avail = confFloor
        rw [hA]
        exact max_eq_left (ceiling_sub_penalty_le_floor intent)

/-- Witness for C8 at the fully degraded chat state. -/
theorem c8_chat_always_decision_shaped_wit :
    (chatEndpoint degradedState).confidence = confFloor :=
  (c8_chat_always_decision_shaped degradedState).2.2.2 rfl

/-- C2: for every crop in the knowledge base, the stage table's GDD
thresholds form a strictly increasing sequence; every accumulated GDD
value inside the table's range falls in exactly one stage interval — no
GDD value maps to two stages — and the derived stage is that unique
interval's stage name. -/
theorem c2_stage_unique_and_thresholds_increasing (crop : String)
    (info : CropInfo) (hkb : kb crop = some info) :
    List.Chain' (fun a b => a < b) (0 :: info.stageThresholds.map Prod.snd) ∧
      ∀ g : ℚ, 0 ≤ g → g < info.totalGdd →
        (∃! e : String × ℚ × ℚ,
          e ∈ stageIntervals info ∧ e.2.1 ≤ g ∧ g < e.2.2) ∧
        ∀ e : String × ℚ × ℚ,
          e ∈ stageIntervals info → e.2.1 ≤ g → g < e.2.2 →
            stageFor info g = e.1 := by
  have hinfo : info = riceInfo := by
    unfold kb at hkb
    by_cases hc : crop = "rice"
    · rw [if_pos hc] at hkb
      injection hkb with h
      exact h.symm
    · rw [if_neg hc] at hkb
      cases hkb
  subst hinfo
  constructor
  · norm_num [riceInfo, List.chain'_cons]
  intro g hg0 hg1
  have hg500 : g < 500 := hg1
  constructor
  · rcases lt_or_le g 50 with h50 | h50
    · refine ⟨("germination", 0, 50), ⟨?_, hg0, h50⟩, ?_⟩
      · rw [riceIntervals_eq]
        exact List.mem_cons_self _ _
      · rintro e ⟨hmem, hlo, hhi⟩
        rw [riceIntervals_eq] at hmem
        simp only [List.mem_cons, List.not_mem_nil, or_false] at hmem
        rcases hmem with rfl | rfl | rfl
        · rfl
        · have hlo2 : (50 : ℚ) ≤ g := hlo
          linarith
        · have hlo2 : (150 : ℚ) ≤ g := hlo
          linarith
    · rcases lt_or_le g 150 with h150 | h150
      · refine ⟨("seedling", 50, 150), ⟨?_, h50, h150⟩, ?_⟩
        · rw [riceIntervals_eq]
          exact List.mem_cons_of_mem _ (List.mem_cons_self _ _)
        · rintro e ⟨hmem, hlo, hhi⟩
          rw [riceIntervals_eq] at hmem
          simp only [List.mem_cons, List.not_mem_nil, or_false] at hmem
          rcases hmem with rfl | rfl | rfl
          · have hhi2 : g < (50 : ℚ) := hhi
            linarith
          · rfl
          · have hlo2 : (150 : ℚ) ≤ g := hlo
            linarith
      · refine ⟨("vegetative", 150, 500), ⟨?_, h150, hg500⟩, ?_⟩
        · rw [riceIntervals_eq]
          exact List.mem_cons_of_mem _ (List.mem_cons_of_mem _ (List.mem_cons_self _ _))
        · rintro e ⟨hmem, hlo, hhi⟩
          rw [riceIntervals_eq] at hmem
          simp only [List.mem_cons, List.not_mem_nil, or_false] at hmem
          rcases hmem with rfl | rfl | rfl
          · have hhi2 : g < (50 : ℚ) := hhi
            linarith
          · have hhi2 : g < (150 : ℚ) := hhi
            linarith
          · rfl
  · intro e hmem hlo hhi
    rw [riceIntervals_eq] at hmem
    simp only [List.mem_cons, List.not_mem_nil, or_false] at hmem
    rcases hmem with rfl | rfl | rfl
    · have hhi2 : g < (50 : ℚ) := hhi
      have hfind : (stageIntervals riceInfo).find?
            (fun e => decide (g < e.2.2)) = some ("germination", 0, 50) := by
        rw [riceIntervals_eq]
        exact List.find?_cons_of_pos _ (by simpa using hhi2)
      simp [stageFor, hfind]
    · have hlo2 : (50 : ℚ) ≤ g := hlo
      have hhi2 : g < (150 : ℚ) := hhi
      have hfind : (stageIntervals riceInfo).find?
            (fun e => decide (g < e.2.2)) = some ("seedling", 50, 150) := by
        rw [riceIntervals_eq]
        rw [List.find?_cons_of_neg _ (by simpa using not_lt.2 hlo2)]
        exact List.find?_cons_of_pos _ (by simpa using hhi2)
      simp [stageFor, hfind]
    · have hlo2 : (150 : ℚ) ≤ g := hlo
      have hhi2 : g < (500 : ℚ) := hhi
      have hfind : (stageIntervals riceInfo).find?
            (fun e => decide (g < e.2.2)) = some ("vegetative", 150, 500) := by
        rw [riceIntervals_eq]
        rw [List.find?_cons_of_neg _ (by simpa using not_lt.2 (le_trans (by norm_num) hlo2))]
        rw [List.find?_cons_of_neg _ (by simpa using not_lt.2 hlo2)]
        exact List.find?_cons_of_pos _ (by simpa using hhi2)
      simp [stageFor, hfind]

/-- Witness for C2 at the rice knowledge-base entry and GDD 270. -/
theorem c2_stage_unique_and_thresholds_increasing_wit :
    kb "rice" = some riceInfo ∧
      ∃! e : String × ℚ × ℚ,
        e ∈ stageIntervals riceInfo ∧ e.2.1 ≤ (270 : ℚ) ∧ (270 : ℚ) < e.2.2 :=
  ⟨rfl, ((c2_stage_unique_and_thresholds_increasing "rice" riceInfo rfl).2
    270 (by norm_num) (by norm_num [riceInfo])).1⟩

/-- C6: for rice (T_base = 10) with 15 days of mean temperature 28 °C
since sowing, the Crop-Stage Evaluator accumulates GDD 270 and, against
the stage table [germination:0-50, seedling:50-150, vegetative:150-500],
derives stage "vegetative" with stage progress (270-150)/(500-150),
which is within 0.001 of 0.343. -/
theorem c6_rice_gdd_vegetative :
    cropStageEvaluate "rice" 0 (List.replicate 15 ((28 : ℚ), 28))
        = .ok (evalWithInfo riceInfo 0 (List.replicate 15 ((28 : ℚ), 28))) ∧
      (evalWithInfo riceInfo 0 (List.replicate 15 ((28 : ℚ), 28))).accumulated_gdd
        = 270 ∧
      (evalWithInfo riceInfo 0 (List.replicate 15 ((28 : ℚ), 28))).stage
        = "vegetative" ∧
      (evalWithInfo riceInfo 0 (List.replicate 15 ((28 : ℚ), 28))).stage_progress
        = (270 - 150) / (500 - 150) ∧
      |(evalWithInfo riceInfo 0 (List.replicate 15 ((28 : ℚ), 28))).stage_progress
          - 343/1000| < 1/1000 := by
  have hday : gddDay 10 28 28 = 18 := by
    have h1 : ((28 : ℚ) + 28) / 2 - 10 = 18 := by norm_num
    rw [gddDay, h1]
    exact max_eq_right (by norm_num)
  have hstep : ∀ (n : Nat) (init : ℚ),
      accumGdd 10 init (List.replicate n ((28 : ℚ), 28)) = init + 18 * n := by
    intro n
    induction n with
    | zero => intro init; simp [accumGdd]
    | succ k ih =>
      intro init
      rw [List.replicate_succ]
      show accumGdd 10 (init + gddDay 10 28 28) (List.replicate k ((28 : ℚ), 28))
        = init + 18 * (k + 1 : Nat)
      rw [hday, ih (init + 18)]
      push_cast
      ring
  have hacc : accumGdd riceInfo.tBase 0 (List.replicate 15 ((28 : ℚ), 28)) = 270 := by
    show accumGdd 10 0 (List.replicate 15 ((28 : ℚ), 28)) = 270
    rw [hstep 15 0]
    norm_num
  have hfind : (stageIntervals riceInfo).find?
      (fun e => decide ((270 : ℚ) < e.2.2)) = some ("vegetative", 150, 500) := by
    rw [riceIntervals_eq]
    rw [List.find?_cons_of_neg _ (by simp only [decide_eq_true_eq]; norm_num)]
    rw [List.find?_cons_of_neg _ (by simp only [decide_eq_true_eq]; norm_num)]
    exact List.find?_cons_of_pos _ (by simp only [decide_eq_true_eq]; norm_num)
  have hstage : stageFor riceInfo 270 = "vegetative" := by
    simp only [stageFor, hfind]
  have hprog : stageProgressFor riceInfo 270 = (270 - 150) / (500 - 150) := by
    simp only [stageProgressFor, hfind]
  have hout : evalWithInfo riceInfo 0 (List.replicate 15 ((28 : ℚ), 28))
      = { accumulated_gdd := 270, stage := "vegetative",
          stage_progress := (270 - 150) / (500 - 150),
          overall_progress := min 1 (270 / 500) } := by
    simp only [evalWithInfo, hacc, hstage, hprog]
    rfl
  refine ⟨rfl, ?_, ?_, ?_, ?_⟩
  · rw [hout]
  · rw [hout]
  · rw [hout]
  · rw [hout]
    show |(270 - 150 : ℚ) / (500 - 150) - 343/1000| < 1/1000
    rw [abs_sub_lt_iff]
    constructor <;> norm_num

end Agri
